import Mathlib

/-!
# SoftDesk API — verification of the authorization and data-consistency core

Shallow embedding of the SoftDesk collaborative project-management backend
(`softdesk/api/models.py`, `serializers.py`, `views.py`, `permissions.py`).

The persistent store is modelled as lists of rows; Django querysets
(`filter(...).exists()`, `get(...)`) become list scans; DRF responses become a
`Status` code paired with the (possibly updated) store; serializer validation
becomes `Except`-returning functions.  Integer primary keys are `Nat`; the
Comment UUID primary key is modelled as an opaque `Nat` identifier.
-/

namespace SoftDesk

/-- Calendar date, as used by `datetime.date` in `models.py` (`User.clean`). -/
structure Date where
  year : Int
  month : Nat
  day : Nat
deriving DecidableEq, Repr

/-- Row of the custom `User` model (`models.py`).  Only the fields the claims
touch are kept: primary key, unique `username`, optional `date_of_birth`. -/
structure User where
  id : Nat
  username : String
  date_of_birth : Option Date
deriving DecidableEq, Repr

/-- Row of the `Project` model: `name`, `description`, `type` (one of the
`TYPE_CHOICES`), `author` foreign key (user id, `on_delete=CASCADE`). -/
structure Project where
  id : Nat
  name : String
  description : String
  type : String
  author : Nat
deriving DecidableEq, Repr

/-- Row of the `Contributor` membership model: `(user, project)` foreign-key
pair, both `on_delete=CASCADE`, `unique_together ('user', 'project')`. -/
structure Contributor where
  user : Nat
  project : Nat
deriving DecidableEq, Repr

/-- Row of the `Issue` model: `project` FK (CASCADE), `author` FK (CASCADE),
nullable `assignee` FK (SET_NULL), `priority`/`tag`/`status` choice fields. -/
structure Issue where
  id : Nat
  name : String
  description : String
  project : Nat
  author : Nat
  assignee : Option Nat
  priority : String
  tag : String
  status : String
deriving DecidableEq, Repr

/-- Row of the `Comment` model: UUID primary key (opaque id), `issue` FK
(CASCADE), `author` FK (CASCADE), free-text `description`. -/
structure Comment where
  id : Nat
  description : String
  issue : Nat
  author : Nat
deriving DecidableEq, Repr

/-- The relational store: one list of rows per model. -/
structure Store where
  users : List User
  projects : List Project
  contributors : List Contributor
  issues : List Issue
  comments : List Comment
deriving DecidableEq, Repr

/-! ## Queryset primitives -/

/-- `project.contributors.filter(user=u).exists()`: is user `uid` a
contributor of project `pid`?  Used by every membership check in
`views.py`, `permissions.py`, `models.py` and `serializers.py`. -/
def isMember (s : Store) (pid uid : Nat) : Bool :=
  s.contributors.any (fun c => c.project == pid && c.user == uid)

/-- `Project.objects.get(pk=...)` (returning `none` for `DoesNotExist`). -/
def findProject (s : Store) (pid : Nat) : Option Project :=
  s.projects.find? (fun p => p.id == pid)

/-- `Issue.objects.get(pk=issuePk, project=project)`. -/
def findIssue (s : Store) (pid issuePk : Nat) : Option Issue :=
  s.issues.find? (fun i => i.id == issuePk && i.project == pid)

/-- `Comment.objects.get(pk=cid, issue=issue)`. -/
def findComment (s : Store) (issueId cid : Nat) : Option Comment :=
  s.comments.find? (fun c => c.id == cid && c.issue == issueId)

/-- `User.objects.get(username=value)`. -/
def findUserByName (s : Store) (uname : String) : Option User :=
  s.users.find? (fun u => u.username == uname)

/-! ## Identity & consent validation (`User.clean` / `User.save`) -/

/-- Python tuple comparison `(today.month, today.day) < (dob.month, dob.day)`
from `User.clean`: lexicographic order on (month, day). -/
def monthDayLt (m1 d1 m2 d2 : Nat) : Bool :=
  m1 < m2 || (m1 == m2 && d1 < d2)

/-- The age computation of `User.clean` (and the `User.age` property):
`today.year - dob.year - ((today.month, today.day) < (dob.month, dob.day))`,
with the Python boolean subtracted as 0 or 1. -/
def computeAge (today dob : Date) : Int :=
  today.year - dob.year - (if monthDayLt today.month today.day dob.month dob.day then 1 else 0)

/-- `User.clean`: when `date_of_birth` is set and the computed age is below
15, raise `ValidationError`; otherwise accept.  A `None` date of birth skips
the age check entirely (`if self.date_of_birth:`). -/
def userClean (u : User) (today : Date) : Except String Unit :=
  match u.date_of_birth with
  | none => .ok ()
  | some dob =>
      if computeAge today dob < 15 then
        .error "L'utilisateur doit avoir au moins 15 ans selon les normes RGPD."
      else
        .ok ()

/-- `User.save`: runs `self.clean()` first and only persists the row when it
passes; a `ValidationError` propagates and nothing is written. -/
def userSave (s : Store) (u : User) (today : Date) : Except String Store :=
  match userClean u today with
  | .error e => .error e
  | .ok () => .ok { s with users := s.users ++ [u] }

/-! ## HTTP outcome model

DRF responses are abstracted to their status code.  The spec's error
taxonomy maps onto these at the boundary: Forbidden → 403, NotFound → 404,
BadRequest/Validation (including duplicate membership) → 400. -/

/-- Response status codes produced by the viewsets in `views.py`. -/
inductive Status where
  | ok200
  | created201
  | noContent204
  | badRequest400
  | forbidden403
  | notFound404
deriving DecidableEq, Repr

/-! ## Project creation (`ProjectSerializer.create`, `ProjectViewSet.create`)

`ProjectViewSet.create` delegates to `super().create` (the stock DRF
`CreateModelView` path), which validates and calls `ProjectSerializer.create`.
That serializer sets `author = request.user` and creates the `Project` row —
and nothing else: its docstring defers the contributor-add to the view, but
`ProjectViewSet` defines no `perform_create` and adds no `Contributor` row.
`newId` stands for the auto-generated primary key. -/

/-- `ProjectSerializer.create` followed by the DRF create path: insert the
project row with `author = requester`; the contributor ledger is untouched. -/
def projectCreate (s : Store) (requester : Nat) (newId : Nat)
    (name description type : String) : Store × Project :=
  let p : Project := { id := newId, name := name, description := description,
                       type := type, author := requester }
  ({ s with projects := s.projects ++ [p] }, p)

/-! ## Membership ledger (`add_contributor` / `remove_contributor`) -/

/-- `ContributorCreateSerializer` (validate + create): look the user up by
`username` (`validate_username`), then refuse when the `(user, project)` pair
already exists, else insert the membership row.  On any validation error the
store is returned unchanged by the caller (`views.py` returns 400). -/
def contributorCreate (s : Store) (project : Project) (uname : String) :
    Except String (Store × Contributor) :=
  match findUserByName s uname with
  | none => .error "Utilisateur non trouvé."
  | some user =>
      if isMember s project.id user.id then
        .error "Cet utilisateur est déjà contributeur de ce projet."
      else
        let c : Contributor := { user := user.id, project := project.id }
        .ok ({ s with contributors := s.contributors ++ [c] }, c)

/-- `ProjectViewSet.get_object` as seen by the contributor routes:
the queryset is `Project.objects.filter(contributors__user=request.user)`
(`get_queryset`), so a project the requester is no contributor of is a 404;
then `check_object_permissions` runs `IsContributor` (already satisfied) and
`IsAuthorOrReadOnly`, which on an unsafe method requires
`project.author == request.user` and otherwise denies with 403. -/
def projectGetObjectUnsafe (s : Store) (requester pk : Nat) :
    Except Status Project :=
  match findProject s pk with
  | none => .error .notFound404
  | some p =>
      if isMember s pk requester = true then
        if p.author = requester then .ok p else .error .forbidden403
      else
        .error .notFound404

/-- `ProjectViewSet.add_contributor`: `get_object`, explicit author gate
(403), then `ContributorCreateSerializer` (400 on validation error, 201 on
success). -/
def addContributor (s : Store) (requester pk : Nat) (uname : String) :
    Status × Store :=
  match projectGetObjectUnsafe s requester pk with
  | .error st => (st, s)
  | .ok p =>
      if p.author ≠ requester then (.forbidden403, s)
      else
        match contributorCreate s p uname with
        | .error _ => (.badRequest400, s)
        | .ok (s', _) => (.created201, s')

/-- `ProjectViewSet.remove_contributor`: `get_object`, explicit author gate
(403), then `project.contributors.get(user_id=user_id)` — `DoesNotExist`
is a 404; a found row whose user is the project author is refused with
HTTP 400 (`"L'auteur ne peut pas être retiré du projet"`); otherwise the row
is deleted (204).  The `unique_together ('user', 'project')` constraint makes
the deleted row unique. -/
def removeContributor (s : Store) (requester pk userId : Nat) :
    Status × Store :=
  match projectGetObjectUnsafe s requester pk with
  | .error st => (st, s)
  | .ok p =>
      if p.author ≠ requester then (.forbidden403, s)
      else
        match s.contributors.find? (fun c => c.project == pk && c.user == userId) with
        | none => (.notFound404, s)
        | some c =>
            if c.user = p.author then (.badRequest400, s)
            else
              (.noContent204,
               { s with contributors :=
                   s.contributors.filter (fun c2 => !(c2.project == pk && c2.user == userId)) })

/-! ## Issue endpoints (`IssueViewSet`, `IssueCreateSerializer`,
`IssueUpdateSerializer`, `Issue.clean`) -/

/-- `PRIORITY_CHOICES` keys of the `Issue` model. -/
def priorityChoices : List String := ["LOW", "MEDIUM", "HIGH"]

/-- `TAG_CHOICES` keys of the `Issue` model. -/
def tagChoices : List String := ["BUG", "FEATURE", "TASK"]

/-- `STATUS_CHOICES` keys of the `Issue` model. -/
def statusChoices : List String := ["TO_DO", "IN_PROGRESS", "FINISHED"]

/-- `Issue.clean`: when an assignee is set, it must be a contributor of the
issue's project, else `ValidationError`. -/
def issueClean (s : Store) (i : Issue) : Except String Unit :=
  match i.assignee with
  | none => .ok ()
  | some a =>
      if isMember s i.project a then .ok ()
      else .error "L'utilisateur assigné doit être contributeur du projet."

/-- `IssueViewSet.get_project`: fetch the project from the URL; missing
project raises `DoesNotExist` (mapped to 404 by every handler), a requester
who is not a contributor raises `PermissionError` (mapped to 403). -/
def issueGetProject (s : Store) (requester projectPk : Nat) :
    Except Status Project :=
  match findProject s projectPk with
  | none => .error .notFound404
  | some p =>
      if isMember s projectPk requester = true then .ok p
      else .error .forbidden403

/-- Request body accepted by `IssueCreateSerializer` /
`IssueUpdateSerializer`: `name` and `description` are required on a full
update, `assignee_username` and the three choice fields are optional
(`none` = field absent; the model defaults apply on create). -/
structure IssueData where
  name : String
  description : String
  assignee_username : Option String
  priority : Option String
  tag : Option String
  status : Option String
deriving DecidableEq, Repr

/-- DRF `ChoiceField` validation for an optional choice field. -/
def validateChoice (choices : List String) (v : Option String) :
    Except String Unit :=
  match v with
  | none => .ok ()
  | some x => if x ∈ choices then .ok () else .error "n'est pas un choix valide."

/-- `IssueCreateSerializer.validate_assignee_username`: an empty value means
no assignee; otherwise the user must exist and be a contributor of the
context project, checked against the current ledger. -/
def validateAssigneeUsernameCreate (s : Store) (project : Project)
    (value : String) : Except String (Option Nat) :=
  if value = "" then .ok none
  else
    match findUserByName s value with
    | none => .error "L'utilisateur n'existe pas."
    | some user =>
        if isMember s project.id user.id then .ok (some user.id)
        else .error "L'utilisateur n'est pas contributeur de ce projet."

/-- `IssueUpdateSerializer.validate_assignee_username`: same check as on
creation, but against `self.instance.project` — i.e. re-run against the
contributor ledger as it stands at update time. -/
def validateAssigneeUsernameUpdate (s : Store) (issue : Issue)
    (value : String) : Except String (Option Nat) :=
  if value = "" then .ok none
  else
    match findUserByName s value with
    | none => .error "L'utilisateur n'existe pas."
    | some user =>
        if isMember s issue.project user.id then .ok (some user.id)
        else .error "L'utilisateur n'est pas contributeur de ce projet."

/-- Full validation run by `IssueCreateSerializer.is_valid`: the optional
assignee username plus the three choice fields.  Returns the validated
assignee (`none` when the field was absent or blank). -/
def validateIssueCreateData (s : Store) (project : Project) (d : IssueData) :
    Except String (Option Nat) :=
  match validateChoice priorityChoices d.priority with
  | .error e => .error e
  | .ok () =>
  match validateChoice tagChoices d.tag with
  | .error e => .error e
  | .ok () =>
  match validateChoice statusChoices d.status with
  | .error e => .error e
  | .ok () =>
  match d.assignee_username with
  | none => .ok none
  | some v => validateAssigneeUsernameCreate s project v

/-- Full validation run by `IssueUpdateSerializer.is_valid`.  Returns the
validated assignee wrapped once more: `none` = field absent (the serializer's
`'no_change'` sentinel), `some a` = set the assignee to `a`. -/
def validateIssueUpdateData (s : Store) (issue : Issue) (d : IssueData) :
    Except String (Option (Option Nat)) :=
  match validateChoice priorityChoices d.priority with
  | .error e => .error e
  | .ok () =>
  match validateChoice tagChoices d.tag with
  | .error e => .error e
  | .ok () =>
  match validateChoice statusChoices d.status with
  | .error e => .error e
  | .ok () =>
  match d.assignee_username with
  | none => .ok none
  | some v =>
      match validateAssigneeUsernameUpdate s issue v with
      | .error e => .error e
      | .ok a => .ok (some a)

/-- `IssueCreateSerializer.create`: author is the requester, project comes
from the context, defaults `MEDIUM`/`TASK`/`TO_DO` apply to absent fields. -/
def buildIssue (project : Project) (requester newId : Nat) (d : IssueData)
    (assignee : Option Nat) : Issue :=
  { id := newId, name := d.name, description := d.description,
    project := project.id, author := requester, assignee := assignee,
    priority := d.priority.getD "MEDIUM", tag := d.tag.getD "TASK",
    status := d.status.getD "TO_DO" }

/-- `IssueViewSet.create` (`POST /projects/{pk}/issues/`): `get_project`
(404/403), serializer validation (400), then create (201). -/
def issueCreate (s : Store) (requester projectPk newId : Nat) (d : IssueData) :
    Status × Store :=
  match issueGetProject s requester projectPk with
  | .error st => (st, s)
  | .ok p =>
      match validateIssueCreateData s p d with
      | .error _ => (.badRequest400, s)
      | .ok assignee =>
          let i := buildIssue p requester newId d assignee
          (.created201, { s with issues := s.issues ++ [i] })

/-- `IssueViewSet.list`: `get_project` decides everything (200/403/404). -/
def issueList (s : Store) (requester projectPk : Nat) : Status :=
  match issueGetProject s requester projectPk with
  | .error st => st
  | .ok _ => .ok200

/-- `IssueViewSet.retrieve`: `get_project`, then `get_object` over the
queryset `project.issues` (404 when the pk is not one of them; the
`IsContributor` object permission is already satisfied). -/
def issueRetrieve (s : Store) (requester projectPk issuePk : Nat) : Status :=
  match issueGetProject s requester projectPk with
  | .error st => st
  | .ok _ =>
      match findIssue s projectPk issuePk with
      | none => .notFound404
      | some _ => .ok200

/-- `IssueUpdateSerializer.update` applied to the instance: the assignee is
only touched when the field was supplied; supplied fields overwrite. -/
def applyIssueUpdate (i : Issue) (d : IssueData)
    (assignee : Option (Option Nat)) : Issue :=
  { i with
    name := d.name, description := d.description,
    assignee := match assignee with | none => i.assignee | some a => a,
    priority := d.priority.getD i.priority,
    tag := d.tag.getD i.tag,
    status := d.status.getD i.status }

/-- `IssueViewSet.update` (PUT): `get_project` (404/403), `get_object`
(404), then the dual-owner gate — denied with 403 unless the requester is
the issue's author or the project's author — then serializer validation
(400) and the write (200). -/
def issueUpdate (s : Store) (requester projectPk issuePk : Nat)
    (d : IssueData) : Status × Store :=
  match issueGetProject s requester projectPk with
  | .error st => (st, s)
  | .ok p =>
      match findIssue s projectPk issuePk with
      | none => (.notFound404, s)
      | some i =>
          if i.author ≠ requester ∧ p.author ≠ requester then
            (.forbidden403, s)
          else
            match validateIssueUpdateData s i d with
            | .error _ => (.badRequest400, s)
            | .ok assignee =>
                let i' := applyIssueUpdate i d assignee
                (.ok200,
                 { s with issues := s.issues.map (fun j => if j.id = i.id then i' else j) })

/-- `IssueViewSet.destroy`: same gates as `update`, then `issue.delete()` —
which cascades to the issue's comments (`Comment.issue` is CASCADE). -/
def issueDestroy (s : Store) (requester projectPk issuePk : Nat) :
    Status × Store :=
  match issueGetProject s requester projectPk with
  | .error st => (st, s)
  | .ok p =>
      match findIssue s projectPk issuePk with
      | none => (.notFound404, s)
      | some i =>
          if i.author ≠ requester ∧ p.author ≠ requester then
            (.forbidden403, s)
          else
            (.noContent204,
             { s with issues := s.issues.filter (fun j => !(j.id == i.id)),
                      comments := s.comments.filter (fun c => !(c.issue == i.id)) })

/-! ## Comment endpoints (`CommentViewSet`, `CommentCreateSerializer`,
`CommentUpdateSerializer`) -/

/-- `CommentViewSet.get_issue`: project lookup (404), issue lookup scoped to
the project (404), then the contributor check (`PermissionError` → 403). -/
def commentGetIssue (s : Store) (requester projectPk issuePk : Nat) :
    Except Status Issue :=
  match findProject s projectPk with
  | none => .error .notFound404
  | some _ =>
      match findIssue s projectPk issuePk with
      | none => .error .notFound404
      | some i =>
          if isMember s projectPk requester = true then .ok i
          else .error .forbidden403

/-- `CommentViewSet.list` (`GET .../comments/`): `get_issue` decides the
status (200/403/404). -/
def commentList (s : Store) (requester projectPk issuePk : Nat) : Status :=
  match commentGetIssue s requester projectPk issuePk with
  | .error st => st
  | .ok _ => .ok200

/-- `CommentCreateSerializer.validate` + `create`: the requester must be a
contributor of the issue's project (guaranteed by `get_issue` on this path);
the comment is created with `author = requester`.  `newId` stands for the
generated UUID. -/
def commentCreateSerializer (s : Store) (issue : Issue) (requester newId : Nat)
    (description : String) : Except String (Store × Comment) :=
  if isMember s issue.project requester then
    let c : Comment := { id := newId, description := description,
                         issue := issue.id, author := requester }
    .ok ({ s with comments := s.comments ++ [c] }, c)
  else
    .error "Vous devez être contributeur du projet pour commenter cette issue."

/-- `CommentViewSet.create`: `get_issue` (404/403), serializer (400), then
the insert (201). -/
def commentCreate (s : Store) (requester projectPk issuePk newId : Nat)
    (description : String) : Status × Store :=
  match commentGetIssue s requester projectPk issuePk with
  | .error st => (st, s)
  | .ok i =>
      match commentCreateSerializer s i requester newId description with
      | .error _ => (.badRequest400, s)
      | .ok (s', _) => (.created201, s')

/-- `CommentViewSet.retrieve`: `get_issue`, then `get_object` — whose
project/membership/issue re-checks are already satisfied on this path — so
only the UUID lookup scoped to the issue remains (404 when absent). -/
def commentRetrieve (s : Store) (requester projectPk issuePk commentPk : Nat) :
    Status :=
  match commentGetIssue s requester projectPk issuePk with
  | .error st => st
  | .ok i =>
      match findComment s i.id commentPk with
      | none => .notFound404
      | some _ => .ok200

/-- `CommentViewSet.update` (PUT): `get_issue` (404/403), `get_object`
(404), the author-only gate — 403 unless `comment.author == request.user`,
with no exception for the project author — then `CommentUpdateSerializer`
(only `description` is writable) and the write (200). -/
def commentUpdate (s : Store) (requester projectPk issuePk commentPk : Nat)
    (description : String) : Status × Store :=
  match commentGetIssue s requester projectPk issuePk with
  | .error st => (st, s)
  | .ok i =>
      match findComment s i.id commentPk with
      | none => (.notFound404, s)
      | some c =>
          if c.author ≠ requester then (.forbidden403, s)
          else
            let c' := { c with description := description }
            (.ok200,
             { s with comments := s.comments.map (fun x => if x.id = c.id then c' else x) })

/-- `CommentViewSet.destroy`: same gates as `update`, then `comment.delete()`
(204). -/
def commentDestroy (s : Store) (requester projectPk issuePk commentPk : Nat) :
    Status × Store :=
  match commentGetIssue s requester projectPk issuePk with
  | .error st => (st, s)
  | .ok i =>
      match findComment s i.id commentPk with
      | none => (.notFound404, s)
      | some c =>
          if c.author ≠ requester then (.forbidden403, s)
          else
            (.noContent204,
             { s with comments := s.comments.filter (fun x => !(x.id == c.id)) })

/-! ## User deletion cascade

No view exposes account deletion, but its semantics are fixed by the
`on_delete` declarations in `models.py`: `Project.author`, `Issue.author`,
`Comment.author` and `Contributor.user`/`Contributor.project` and
`Issue.project`/`Comment.issue` are all `CASCADE`, while `Issue.assignee` is
`SET_NULL`.  `deleteUser` is the Django deletion collector applied to this
schema: deleting a user deletes their authored projects (and, transitively,
those projects' issues, those issues' comments, and those projects'
membership rows), their authored issues (and those issues' comments), their
authored comments, their membership rows, and nulls out `assignee`
references to them. -/

/-- Django cascade semantics of `user.delete()` under the FK declarations of
`models.py`. -/
def deleteUser (s : Store) (uid : Nat) : Store :=
  let deadProjectIds := (s.projects.filter (fun p => p.author == uid)).map Project.id
  let deadIssue : Issue → Bool :=
    fun i => i.author == uid || deadProjectIds.contains i.project
  let deadIssueIds := (s.issues.filter deadIssue).map Issue.id
  { users := s.users.filter (fun u => !(u.id == uid)),
    projects := s.projects.filter (fun p => !(p.author == uid)),
    contributors :=
      s.contributors.filter (fun c => !(c.user == uid || deadProjectIds.contains c.project)),
    issues :=
      (s.issues.filter (fun i => !(deadIssue i))).map
        (fun i => if i.assignee = some uid then { i with assignee := none } else i),
    comments :=
      s.comments.filter (fun c => !(c.author == uid || deadIssueIds.contains c.issue)) }

/-! ## Sequences of `add_contributor` serializer calls (for the
at-most-once property of the membership ledger) -/

/-- Run a sequence of `ContributorCreateSerializer` calls, threading the
store; a failed call leaves the store unchanged (the view returns 400
without saving). -/
def runAdds (s : Store) : List (Project × String) → Store
  | [] => s
  | (q, w) :: rest =>
      match contributorCreate s q w with
      | .ok (s', _) => runAdds s' rest
      | .error _ => runAdds s rest

/-- Number of calls in the sequence that target project id `pid` and
username `uname` and succeed. -/
def countAddSuccesses (s : Store) (pid : Nat) (uname : String) :
    List (Project × String) → Nat
  | [] => 0
  | (q, w) :: rest =>
      match contributorCreate s q w with
      | .ok (s', _) =>
          (if q.id = pid ∧ w = uname then 1 else 0) + countAddSuccesses s' pid uname rest
      | .error _ => countAddSuccesses s pid uname rest

/-- The `(project, user)` pair named by `uname` is present in the ledger:
the user exists and is a member of project `pid`. -/
def pairPresent (s : Store) (pid : Nat) (uname : String) : Prop :=
  ∃ u, findUserByName s uname = some u ∧ isMember s pid u.id = true

/-! ## Concrete fixtures for witnesses and counterexamples -/

/-- Demo user "alice", id 1, born 2000-01-01. -/
def alice : User := { id := 1, username := "alice", date_of_birth := some ⟨2000, 1, 1⟩ }

/-- Demo user "bob", id 2, no date of birth on record. -/
def bob : User := { id := 2, username := "bob", date_of_birth := none }

/-- Demo user "carol", id 3, not a member of any demo project. -/
def carol : User := { id := 3, username := "carol", date_of_birth := none }

/-- Demo project `P1`, id 10, authored by alice. -/
def projectP1 : Project :=
  { id := 10, name := "P1", description := "demo", type := "backend", author := 1 }

/-- Demo issue `I1` in `P1`, id 20, authored by bob, unassigned. -/
def issueI1 : Issue :=
  { id := 20, name := "I1", description := "demo", project := 10, author := 2,
    assignee := none, priority := "MEDIUM", tag := "TASK", status := "TO_DO" }

/-- Demo comment on `I1`, id 30, authored by bob. -/
def commentK1 : Comment :=
  { id := 30, description := "demo", issue := 20, author := 2 }

/-- Demo store: alice, bob and carol; `P1` with members alice and bob;
issue `I1` with one comment by bob. -/
def demoStore : Store :=
  { users := [alice, bob, carol],
    projects := [projectP1],
    contributors := [⟨1, 10⟩, ⟨2, 10⟩],
    issues := [issueI1],
    comments := [commentK1] }

/-- Store holding only alice, before she creates any project. -/
def emptyStoreAlice : Store :=
  { users := [alice], projects := [], contributors := [], issues := [], comments := [] }

/-- Demo issue `I2` in `P1`, id 21, authored by carol (who is no longer a
member of `P1`): the object's author can be a non-member. -/
def issueI2 : Issue :=
  { id := 21, name := "I2", description := "demo", project := 10, author := 3,
    assignee := none, priority := "MEDIUM", tag := "TASK", status := "TO_DO" }

/-- Demo comment on `I2`, id 31, authored by carol. -/
def commentK2 : Comment :=
  { id := 31, description := "demo", issue := 21, author := 3 }

/-- Variant of the demo store where non-member carol authored issue `I2`
and a comment on it. -/
def demoStoreNonMemberAuthor : Store :=
  { demoStore with issues := [issueI1, issueI2], comments := [commentK1, commentK2] }

/-- Variant of the demo store where carol is a third member of `P1`
(a contributor who authored neither the project nor its issue). -/
def demoStoreThirdMember : Store :=
  { demoStore with contributors := [⟨1, 10⟩, ⟨2, 10⟩, ⟨3, 10⟩] }

/-- A full-update body that changes nothing interesting: all optional
fields absent. -/
def dataPlain : IssueData :=
  { name := "I1", description := "demo", assignee_username := none,
    priority := none, tag := none, status := none }

/-- A full-update body that tries to assign the issue to carol. -/
def dataAssignCarol : IssueData :=
  { name := "I1", description := "demo", assignee_username := some "carol",
    priority := none, tag := none, status := none }

/-! # Theorems -/

/-- **C6.** `User.clean`/`User.save` compute the age by calendar-aware
subtraction — the year difference minus one exactly when the current
(month, day) pair precedes the birth (month, day) pair — reject (persisting
nothing) whenever the computed age is below 15, accept whenever it is at
least 15, and in particular accept a user turning exactly 15 on the current
day. -/
theorem age_validation_correct :
    (∀ today dob : Date,
        computeAge today dob =
          if monthDayLt today.month today.day dob.month dob.day = true
          then today.year - dob.year - 1 else today.year - dob.year) ∧
    (∀ (s : Store) (u : User) (today dob : Date),
        u.date_of_birth = some dob → computeAge today dob < 15 →
        userClean u today =
          .error "L'utilisateur doit avoir au moins 15 ans selon les normes RGPD." ∧
        userSave s u today =
          .error "L'utilisateur doit avoir au moins 15 ans selon les normes RGPD.") ∧
    (∀ (s : Store) (u : User) (today dob : Date),
        u.date_of_birth = some dob → 15 ≤ computeAge today dob →
        userSave s u today = .ok { s with users := s.users ++ [u] }) ∧
    (∀ (y : Int) (m d : Nat) (s : Store) (u : User),
        u.date_of_birth = some ⟨y, m, d⟩ →
        computeAge ⟨y + 15, m, d⟩ ⟨y, m, d⟩ = 15 ∧
        userSave s u ⟨y + 15, m, d⟩ = .ok { s with users := s.users ++ [u] }) := by
  have hedge : ∀ (y : Int) (m d : Nat), computeAge ⟨y + 15, m, d⟩ ⟨y, m, d⟩ = 15 := by
    intro y m d
    simp [computeAge, monthDayLt]
  refine ⟨?_, ?_, ?_, ?_⟩
  · intro today dob
    by_cases h : monthDayLt today.month today.day dob.month dob.day = true
    · simp [computeAge, h]
    · simp only [Bool.not_eq_true] at h
      simp [computeAge, h]
  · intro s u today dob h hlt
    simp [userClean, userSave, h, hlt]
  · intro s u today dob h hge
    have : ¬ computeAge today dob < 15 := by omega
    simp [userClean, userSave, h, this]
  · intro y m d s u h
    refine ⟨hedge y m d, ?_⟩
    have : ¬ computeAge ⟨y + 15, m, d⟩ ⟨y, m, d⟩ < 15 := by
      rw [hedge y m d]; omega
    simp [userClean, userSave, h, this]

/-- Witness for C6: a candidate born 2015-01-01 is rejected on 2026-10-12
(computed age 11), and a candidate born 2011-10-12 is accepted on 2026-10-12
(their 15th birthday). -/
theorem age_validation_correct_witness :
    userSave emptyStoreAlice { id := 4, username := "dana", date_of_birth := some ⟨2015, 1, 1⟩ } ⟨2026, 10, 12⟩ =
      .error "L'utilisateur doit avoir au moins 15 ans selon les normes RGPD." ∧
    userSave emptyStoreAlice { id := 5, username := "erin", date_of_birth := some ⟨2011, 10, 12⟩ } ⟨2026, 10, 12⟩ =
      .ok { emptyStoreAlice with
            users := emptyStoreAlice.users ++ [{ id := 5, username := "erin", date_of_birth := some ⟨2011, 10, 12⟩ }] } :=
  ⟨(age_validation_correct.2.1 emptyStoreAlice _ ⟨2026, 10, 12⟩ ⟨2015, 1, 1⟩ rfl (by decide)).2,
   (age_validation_correct.2.2.2 2011 10 12 emptyStoreAlice _ rfl).2⟩

/-- **C10.** A candidate whose `date_of_birth` is `None` passes `User.clean`
unconditionally — the age check is skipped — and `User.save` persists the
row without any age validation, whatever the current date. -/
theorem null_dob_skips_age_check (s : Store) (u : User) (today : Date)
    (h : u.date_of_birth = none) :
    userClean u today = .ok () ∧
    userSave s u today = .ok { s with users := s.users ++ [u] } := by
  simp [userClean, userSave, h]

/-- Witness for C10: bob, who has no date of birth on record, is saved. -/
theorem null_dob_skips_age_check_witness :
    userClean bob ⟨2026, 10, 12⟩ = .ok () ∧
    userSave emptyStoreAlice bob ⟨2026, 10, 12⟩ =
      .ok { emptyStoreAlice with users := emptyStoreAlice.users ++ [bob] } :=
  null_dob_skips_age_check emptyStoreAlice bob ⟨2026, 10, 12⟩ rfl

/-- **C1.** Contrary to the claim (and to the repository's own route and
swagger documentation, which promise that the creator automatically becomes
a contributor), `ProjectSerializer.create` + `ProjectViewSet.create` insert
only the `Project` row: the contributor ledger is returned unchanged by
every creation, and in particular after alice creates `P1` in a fresh store
she is not a member of her own project. -/
theorem project_create_never_adds_author_membership :
    (∀ (s : Store) (r newId : Nat) (n d t : String),
        ((projectCreate s r newId n d t).1).contributors = s.contributors ∧
        (projectCreate s r newId n d t).2.author = r) ∧
    ((projectCreate emptyStoreAlice 1 11 "P1" "demo" "backend").1.contributors = [] ∧
     isMember (projectCreate emptyStoreAlice 1 11 "P1" "demo" "backend").1 11 1 = false) :=
  ⟨fun _ _ _ _ _ _ => ⟨rfl, rfl⟩, by decide⟩

/-- Counterexample for C2: in the demo store (alice authors `P1` and has a
membership row), the author removing her own membership yields HTTP 400
(BadRequest), not the Forbidden outcome the claim requires. -/
theorem remove_author_membership_not_forbidden :
    removeContributor demoStore 1 10 1 = (.badRequest400, demoStore) ∧
    Status.badRequest400 ≠ Status.forbidden403 := by
  decide

/-- **C2 (amended).** `remove_contributor`, invoked by the project author,
looks the membership row up first: a missing row fails with NotFound (404);
a present row whose user is the project author fails with BadRequest (400)
— not Forbidden — and in both failure cases the store, hence the membership
ledger, is unchanged. -/
theorem remove_member_author_badrequest_else_notfound
    (s : Store) (p : Project) (pk userId : Nat)
    (hp : findProject s pk = some p)
    (hm : isMember s pk p.author = true) :
    (∀ c, s.contributors.find? (fun c => c.project == pk && c.user == p.author) = some c →
        removeContributor s p.author pk p.author = (.badRequest400, s)) ∧
    (s.contributors.find? (fun c => c.project == pk && c.user == userId) = none →
        removeContributor s p.author pk userId = (.notFound404, s)) := by
  constructor
  · intro c hc
    have hcu : c.user = p.author := by
      have := List.find?_some hc
      simp only [Bool.and_eq_true, beq_iff_eq] at this
      exact this.2
    simp [removeContributor, projectGetObjectUnsafe, hp, hm, hc, hcu]
  · intro hnone
    simp [removeContributor, projectGetObjectUnsafe, hp, hm, hnone]

/-- Witness for C2 (amended): in the demo store, alice removing herself
gets 400 with the ledger intact, and alice removing carol (no membership
row) gets 404 with the ledger intact. -/
theorem remove_member_author_badrequest_else_notfound_witness :
    removeContributor demoStore projectP1.author 10 projectP1.author = (.badRequest400, demoStore) ∧
    removeContributor demoStore projectP1.author 10 3 = (.notFound404, demoStore) :=
  ⟨(remove_member_author_badrequest_else_notfound demoStore projectP1 10 3
      (by decide) (by decide)).1 ⟨1, 10⟩ (by decide),
   (remove_member_author_badrequest_else_notfound demoStore projectP1 10 3
      (by decide) (by decide)).2 (by decide)⟩

/-- **C3.** For a requester who is not a contributor of an (existing)
project, every read and every write endpoint on that project's issues and
comments yields a Forbidden outcome with the store unchanged.  The
requester is universally quantified, so the result holds in particular when
the requester is the object's author: the membership check in
`get_project`/`get_issue` short-circuits before any ownership check. -/
theorem nonmember_all_issue_comment_ops_forbidden
    (s : Store) (p : Project) (i : Issue)
    (r projectPk issuePk commentPk newId : Nat) (d : IssueData) (txt : String)
    (hp : findProject s projectPk = some p)
    (hm : isMember s projectPk r = false)
    (hi : findIssue s projectPk issuePk = some i) :
    issueList s r projectPk = .forbidden403 ∧
    issueCreate s r projectPk newId d = (.forbidden403, s) ∧
    issueRetrieve s r projectPk issuePk = .forbidden403 ∧
    issueUpdate s r projectPk issuePk d = (.forbidden403, s) ∧
    issueDestroy s r projectPk issuePk = (.forbidden403, s) ∧
    commentList s r projectPk issuePk = .forbidden403 ∧
    commentCreate s r projectPk issuePk newId txt = (.forbidden403, s) ∧
    commentRetrieve s r projectPk issuePk commentPk = .forbidden403 ∧
    commentUpdate s r projectPk issuePk commentPk txt = (.forbidden403, s) ∧
    commentDestroy s r projectPk issuePk commentPk = (.forbidden403, s) := by
  refine ⟨?_, ?_, ?_, ?_, ?_, ?_, ?_, ?_, ?_, ?_⟩ <;>
    simp [issueList, issueCreate, issueRetrieve, issueUpdate, issueDestroy,
          commentList, commentCreate, commentRetrieve, commentUpdate,
          commentDestroy, issueGetProject, commentGetIssue, hp, hm, hi]

/-- Witness for C3: carol is not a member of `P1` yet authored issue `I2`
and its comment; every issue/comment endpoint denies her with 403. -/
theorem nonmember_all_issue_comment_ops_forbidden_witness :
    issueList demoStoreNonMemberAuthor 3 10 = .forbidden403 ∧
    issueCreate demoStoreNonMemberAuthor 3 10 22 dataPlain = (.forbidden403, demoStoreNonMemberAuthor) ∧
    issueRetrieve demoStoreNonMemberAuthor 3 10 21 = .forbidden403 ∧
    issueUpdate demoStoreNonMemberAuthor 3 10 21 dataPlain = (.forbidden403, demoStoreNonMemberAuthor) ∧
    issueDestroy demoStoreNonMemberAuthor 3 10 21 = (.forbidden403, demoStoreNonMemberAuthor) ∧
    commentList demoStoreNonMemberAuthor 3 10 21 = .forbidden403 ∧
    commentCreate demoStoreNonMemberAuthor 3 10 21 32 "hi" = (.forbidden403, demoStoreNonMemberAuthor) ∧
    commentRetrieve demoStoreNonMemberAuthor 3 10 21 31 = .forbidden403 ∧
    commentUpdate demoStoreNonMemberAuthor 3 10 21 31 "hi" = (.forbidden403, demoStoreNonMemberAuthor) ∧
    commentDestroy demoStoreNonMemberAuthor 3 10 21 31 = (.forbidden403, demoStoreNonMemberAuthor) :=
  nonmember_all_issue_comment_ops_forbidden demoStoreNonMemberAuthor projectP1 issueI2
    3 10 21 31 22 dataPlain "hi" (by decide) (by decide) (by decide)

/-- **C4.** For a member requester, issue update and delete succeed exactly
when the requester is the issue's author or the project's author (for
update, provided the submitted body validates), and any third member is
denied with 403, the store unchanged. -/
theorem issue_mutation_dual_owner
    (s : Store) (p : Project) (i : Issue) (r projectPk issuePk : Nat)
    (d : IssueData)
    (hp : findProject s projectPk = some p)
    (hm : isMember s projectPk r = true)
    (hi : findIssue s projectPk issuePk = some i) :
    ((issueDestroy s r projectPk issuePk).1 = .noContent204 ↔
        (i.author = r ∨ p.author = r)) ∧
    (¬(i.author = r ∨ p.author = r) →
        issueDestroy s r projectPk issuePk = (.forbidden403, s)) ∧
    (∀ a, validateIssueUpdateData s i d = .ok a →
        ((issueUpdate s r projectPk issuePk d).1 = .ok200 ↔
            (i.author = r ∨ p.author = r))) ∧
    (¬(i.author = r ∨ p.author = r) →
        issueUpdate s r projectPk issuePk d = (.forbidden403, s)) := by
  by_cases hcase : i.author = r ∨ p.author = r
  · have hcond : ¬(i.author ≠ r ∧ p.author ≠ r) := by tauto
    refine ⟨?_, fun hn => absurd hcase hn, ?_, fun hn => absurd hcase hn⟩
    · simp [issueDestroy, issueGetProject, hp, hm, hi, hcond, hcase]
    · intro a ha
      simp [issueUpdate, issueGetProject, hp, hm, hi, hcond, ha, hcase]
  · have hcond : i.author ≠ r ∧ p.author ≠ r := by tauto
    refine ⟨?_, ?_, ?_, ?_⟩
    · simp [issueDestroy, issueGetProject, hp, hm, hi, hcond, hcase]
    · intro _
      simp [issueDestroy, issueGetProject, hp, hm, hi, hcond]
    · intro a ha
      simp [issueUpdate, issueGetProject, hp, hm, hi, hcond, hcase]
    · intro _
      simp [issueUpdate, issueGetProject, hp, hm, hi, hcond]

/-- Witness for C4: alice (project author, not issue author) may update
bob's issue `I1`; third member carol is denied delete with 403. -/
theorem issue_mutation_dual_owner_witness :
    (issueUpdate demoStore 1 10 20 dataPlain).1 = .ok200 ∧
    issueDestroy demoStoreThirdMember 3 10 20 = (.forbidden403, demoStoreThirdMember) :=
  ⟨((issue_mutation_dual_owner demoStore projectP1 issueI1 1 10 20 dataPlain
      (by decide) (by decide) (by decide)).2.2.1 none rfl).mpr (Or.inr (by decide)),
   (issue_mutation_dual_owner demoStoreThirdMember projectP1 issueI1 3 10 20 dataPlain
      (by decide) (by decide) (by decide)).2.1 (by decide)⟩

/-- **C5.** For a member requester, comment update and delete succeed
exactly when the requester is the comment's author; any other member —
including the project's author — is denied with 403, the store unchanged. -/
theorem comment_mutation_comment_author_only
    (s : Store) (p : Project) (i : Issue) (c : Comment)
    (r projectPk issuePk commentPk : Nat) (txt : String)
    (hp : findProject s projectPk = some p)
    (hm : isMember s projectPk r = true)
    (hi : findIssue s projectPk issuePk = some i)
    (hc : findComment s i.id commentPk = some c) :
    ((commentUpdate s r projectPk issuePk commentPk txt).1 = .ok200 ↔
        c.author = r) ∧
    ((commentDestroy s r projectPk issuePk commentPk).1 = .noContent204 ↔
        c.author = r) ∧
    (c.author ≠ r →
        commentUpdate s r projectPk issuePk commentPk txt = (.forbidden403, s) ∧
        commentDestroy s r projectPk issuePk commentPk = (.forbidden403, s)) := by
  by_cases hcase : c.author = r
  · refine ⟨?_, ?_, fun hn => absurd hcase hn⟩ <;>
      simp [commentUpdate, commentDestroy, commentGetIssue, hp, hm, hi, hc, hcase]
  · refine ⟨?_, ?_, fun _ => ⟨?_, ?_⟩⟩ <;>
      simp [commentUpdate, commentDestroy, commentGetIssue, hp, hm, hi, hc, hcase]

/-- Witness for C5: alice, the project author of `P1` but not the author of
bob's comment, is denied update and delete of it with 403; bob himself
succeeds. -/
theorem comment_mutation_comment_author_only_witness :
    commentUpdate demoStore 1 10 20 30 "edit" = (.forbidden403, demoStore) ∧
    commentDestroy demoStore 1 10 20 30 = (.forbidden403, demoStore) ∧
    (commentDestroy demoStore 2 10 20 30).1 = .noContent204 :=
  ⟨(comment_mutation_comment_author_only demoStore projectP1 issueI1 commentK1
      1 10 20 30 "edit" (by decide) (by decide) (by decide) (by decide)).2.2 (by decide) |>.1,
   (comment_mutation_comment_author_only demoStore projectP1 issueI1 commentK1
      1 10 20 30 "edit" (by decide) (by decide) (by decide) (by decide)).2.2 (by decide) |>.2,
   (comment_mutation_comment_author_only demoStore projectP1 issueI1 commentK1
      2 10 20 30 "edit" (by decide) (by decide) (by decide) (by decide)).2.1.mpr (by decide)⟩

/-- Helper: a successful `ContributorCreateSerializer` call means the
username resolved to a user who was not yet a member, and the new store is
the old one with exactly the one new membership row appended. -/
theorem contributorCreate_ok_elim {s : Store} {q : Project} {w : String}
    {s' : Store} {c : Contributor}
    (h : contributorCreate s q w = .ok (s', c)) :
    ∃ u, findUserByName s w = some u ∧ isMember s q.id u.id = false ∧
      c = ⟨u.id, q.id⟩ ∧
      s' = { s with contributors := s.contributors ++ [⟨u.id, q.id⟩] } := by
  unfold contributorCreate at h
  split at h
  · cases h
  next u hu =>
    split at h
    · cases h
    next hm =>
      simp only [Except.ok.injEq, Prod.mk.injEq] at h
      exact ⟨u, hu, by simpa using hm, h.2.symm, h.1.symm⟩

/-- Helper: the serializer's duplicate check — a username resolving to an
existing member makes `ContributorCreateSerializer` fail with the duplicate
`ValidationError`. -/
theorem contributorCreate_duplicate_error (s : Store) (p : Project)
    (uname : String) (u : User)
    (hu : findUserByName s uname = some u) (hm : isMember s p.id u.id = true) :
    contributorCreate s p uname =
      .error "Cet utilisateur est déjà contributeur de ce projet." := by
  unfold contributorCreate
  rw [hu]
  simp [hm]

/-- Helper: once the pair named by `uname` is present in the ledger, it
stays present across any further `ContributorCreateSerializer` call. -/
theorem pairPresent_preserved {s : Store} {pid : Nat} {uname : String}
    (h : pairPresent s pid uname) {q : Project} {w : String} {s' : Store}
    {c : Contributor} (hc : contributorCreate s q w = .ok (s', c)) :
    pairPresent s' pid uname := by
  obtain ⟨u, hu, hm⟩ := h
  obtain ⟨u', hu', hm', hcc, hs'⟩ := contributorCreate_ok_elim hc
  refine ⟨u, ?_, ?_⟩
  · rw [hs']; exact hu
  · rw [hs']
    simp only [isMember, List.any_append] at hm ⊢
    simp [hm]

/-- Helper: once the pair is present, no later call in a sequence can add
it again — zero further successes for that pair. -/
theorem countAddSuccesses_zero_of_present {pid : Nat} {uname : String} :
    ∀ (reqs : List (Project × String)) (s : Store), pairPresent s pid uname →
      countAddSuccesses s pid uname reqs = 0 := by
  intro reqs
  induction reqs with
  | nil => intro s _; rfl
  | cons qw rest ih =>
      intro s h
      obtain ⟨q, w⟩ := qw
      unfold countAddSuccesses
      cases hc : contributorCreate s q w with
      | error e => exact ih s h
      | ok res =>
          obtain ⟨s', c⟩ := res
          have hpres' : pairPresent s' pid uname := pairPresent_preserved h hc
          have hind : ¬(q.id = pid ∧ w = uname) := by
            rintro ⟨hq, hw⟩
            obtain ⟨u, hu, hm⟩ := h
            obtain ⟨u', hu', hm', _, _⟩ := contributorCreate_ok_elim hc
            rw [hw, hu] at hu'
            obtain rfl : u = u' := by injection hu'
            rw [hq] at hm'
            rw [hm] at hm'
            cases hm'
          simp [hind, ih s' hpres']

/-- Helper: across any sequence of `ContributorCreateSerializer` calls, the
pair `(project pid, username uname)` is added successfully at most once. -/
theorem countAddSuccesses_le_one {pid : Nat} {uname : String} :
    ∀ (reqs : List (Project × String)) (s : Store),
      countAddSuccesses s pid uname reqs ≤ 1 := by
  intro reqs
  induction reqs with
  | nil => intro s; simp [countAddSuccesses]
  | cons qw rest ih =>
      intro s
      obtain ⟨q, w⟩ := qw
      unfold countAddSuccesses
      cases hc : contributorCreate s q w with
      | error e => exact ih s
      | ok res =>
          obtain ⟨s', c⟩ := res
          by_cases hind : q.id = pid ∧ w = uname
          · obtain ⟨u, hu, hm, hcc, hs'⟩ := contributorCreate_ok_elim hc
            have hpres' : pairPresent s' pid uname := by
              refine ⟨u, ?_, ?_⟩
              · rw [← hind.2, hs']; exact hu
              · rw [← hind.1, hs']
                simp [isMember, List.any_append]
            simp [hind, countAddSuccesses_zero_of_present rest s' hpres']
          · simpa [hind] using ih s'

/-- **C8.** `add_member` succeeds at most once per `(project, user)` pair:
when the membership already exists the serializer fails with the duplicate
`ValidationError` (creating nothing — an error returns no store), an
immediately repeated call after a success fails the same way, and across
any sequence of calls the pair is successfully added at most once. -/
theorem add_member_at_most_once :
    (∀ (s : Store) (p : Project) (uname : String) (u : User),
        findUserByName s uname = some u → isMember s p.id u.id = true →
        contributorCreate s p uname =
          .error "Cet utilisateur est déjà contributeur de ce projet.") ∧
    (∀ (s : Store) (p : Project) (uname : String) (s' : Store) (c : Contributor),
        contributorCreate s p uname = .ok (s', c) →
        contributorCreate s' p uname =
          .error "Cet utilisateur est déjà contributeur de ce projet.") ∧
    (∀ (s : Store) (pid : Nat) (uname : String) (reqs : List (Project × String)),
        countAddSuccesses s pid uname reqs ≤ 1) := by
  refine ⟨contributorCreate_duplicate_error, ?_,
          fun s pid uname reqs => countAddSuccesses_le_one reqs s⟩
  intro s p uname s' c hc
  obtain ⟨u, hu, hm, hcc, hs'⟩ := contributorCreate_ok_elim hc
  apply contributorCreate_duplicate_error s' p uname u
  · rw [hs']; exact hu
  · rw [hs']
    simp [isMember, List.any_append]

/-- Witness for C8: adding bob (already a member of `P1`) fails with the
duplicate error, and a two-call sequence adding carol twice succeeds at
most once. -/
theorem add_member_at_most_once_witness :
    contributorCreate demoStore projectP1 "bob" =
      .error "Cet utilisateur est déjà contributeur de ce projet." ∧
    countAddSuccesses demoStore 10 "carol" [(projectP1, "carol"), (projectP1, "carol")] ≤ 1 :=
  ⟨add_member_at_most_once.1 demoStore projectP1 "bob" bob (by decide) (by decide),
   add_member_at_most_once.2.2 demoStore 10 "carol" [(projectP1, "carol"), (projectP1, "carol")]⟩

/-- **C7.** Assignee validation requires *current* membership: the update
and create serializer validators accept exactly a blank value or a username
resolving to a current contributor of the (issue's) project; `Issue.clean`
accepts exactly a null assignee or a current-member assignee; and an update
naming a user who is not a member at update time is rejected with 400 and
no state change, even when issued by the issue's author. -/
theorem set_assignee_requires_current_membership :
    (∀ (s : Store) (issue : Issue) (value : String),
        (∃ x, validateAssigneeUsernameUpdate s issue value = .ok x) ↔
          (value = "" ∨
           ∃ u, findUserByName s value = some u ∧
                isMember s issue.project u.id = true)) ∧
    (∀ (s : Store) (project : Project) (value : String),
        (∃ x, validateAssigneeUsernameCreate s project value = .ok x) ↔
          (value = "" ∨
           ∃ u, findUserByName s value = some u ∧
                isMember s project.id u.id = true)) ∧
    (∀ (s : Store) (i : Issue),
        issueClean s i = .ok () ↔
          (i.assignee = none ∨
           ∃ a, i.assignee = some a ∧ isMember s i.project a = true)) ∧
    (∀ (s : Store) (p : Project) (i : Issue) (r projectPk issuePk : Nat)
        (d : IssueData) (u : User) (v : String),
        findProject s projectPk = some p →
        isMember s projectPk r = true →
        findIssue s projectPk issuePk = some i →
        i.author = r →
        d.assignee_username = some v → v ≠ "" →
        findUserByName s v = some u →
        isMember s i.project u.id = false →
        issueUpdate s r projectPk issuePk d = (.badRequest400, s)) := by
  refine ⟨?_, ?_, ?_, ?_⟩
  · intro s issue value
    unfold validateAssigneeUsernameUpdate
    by_cases hv : value = ""
    · simp [hv]
    · simp only [if_neg hv]
      cases hu : findUserByName s value with
      | none => simp [hv, hu]
      | some u =>
          by_cases hm : isMember s issue.project u.id = true
          · simp [hv, hu, hm]
          · simp [hv, hu, hm]
  · intro s project value
    unfold validateAssigneeUsernameCreate
    by_cases hv : value = ""
    · simp [hv]
    · simp only [if_neg hv]
      cases hu : findUserByName s value with
      | none => simp [hv, hu]
      | some u =>
          by_cases hm : isMember s project.id u.id = true
          · simp [hv, hu, hm]
          · simp [hv, hu, hm]
  · intro s i
    unfold issueClean
    cases ha : i.assignee with
    | none => simp [ha]
    | some a =>
        by_cases hm : isMember s i.project a = true
        · simp [ha, hm]
        · simp [ha, hm]
  · intro s p i r projectPk issuePk d u v hp hm hi hr hd hv hu hnm
    have hgate : ¬(i.author ≠ r ∧ p.author ≠ r) := fun hx => hx.1 hr
    have herr : ∀ x, validateIssueUpdateData s i d ≠ .ok x := by
      intro x hx
      unfold validateIssueUpdateData at hx
      split at hx
      · cases hx
      split at hx
      · cases hx
      split at hx
      · cases hx
      split at hx
      next hnone => rw [hd] at hnone; cases hnone
      next v' hsome =>
        rw [hd] at hsome
        obtain rfl : v = v' := by injection hsome
        split at hx
        · cases hx
        next a ha =>
          unfold validateAssigneeUsernameUpdate at ha
          rw [if_neg hv, hu] at ha
          simp [hnm] at ha
    cases hvd : validateIssueUpdateData s i d with
    | ok a => exact absurd hvd (herr a)
    | error e =>
        simp [issueUpdate, issueGetProject, hp, hm, hi, hgate, hvd]

/-- Witness for C7: bob, the author of issue `I1`, tries to reassign it to
carol — who exists but is no longer a member of `P1` — and is rejected with
400, the store unchanged. -/
theorem set_assignee_requires_current_membership_witness :
    issueUpdate demoStore 2 10 20 dataAssignCarol = (.badRequest400, demoStore) :=
  set_assignee_requires_current_membership.2.2.2 demoStore projectP1 issueI1 2 10 20
    dataAssignCarol carol "carol" (by decide) (by decide) (by decide) (by decide)
    rfl (by decide) (by decide) (by decide)

/-- **C9.** Deleting a user, under the `on_delete` declarations of
`models.py`, removes every comment the user authored, every issue they
authored, every project they authored together with that project's issues,
comments and membership rows, every membership row of the user, and the
user row itself; no surviving row references the user (surviving issues
that were assigned to them are nulled out by `SET_NULL`). -/
theorem delete_user_full_cascade (s : Store) (uid : Nat) :
    (∀ u ∈ (deleteUser s uid).users, u.id ≠ uid) ∧
    (∀ p ∈ (deleteUser s uid).projects, p.author ≠ uid) ∧
    (∀ c ∈ (deleteUser s uid).contributors, c.user ≠ uid) ∧
    (∀ i ∈ (deleteUser s uid).issues, i.author ≠ uid ∧ i.assignee ≠ some uid) ∧
    (∀ c ∈ (deleteUser s uid).comments, c.author ≠ uid) ∧
    (∀ p ∈ s.projects, p.author = uid →
        (∀ i ∈ (deleteUser s uid).issues, i.project ≠ p.id) ∧
        (∀ c ∈ (deleteUser s uid).contributors, c.project ≠ p.id)) ∧
    (∀ i ∈ s.issues,
        (i.author = uid ∨ ∃ p ∈ s.projects, p.author = uid ∧ i.project = p.id) →
        ∀ c ∈ (deleteUser s uid).comments, c.issue ≠ i.id) := by
  refine ⟨?_, ?_, ?_, ?_, ?_, ?_, ?_⟩
  · intro u hu
    simp only [deleteUser, List.mem_filter, Bool.not_eq_true', beq_eq_false_iff_ne,
      ne_eq] at hu
    exact hu.2
  · intro p hp
    simp only [deleteUser, List.mem_filter, Bool.not_eq_true', beq_eq_false_iff_ne,
      ne_eq] at hp
    exact hp.2
  · intro c hc
    simp only [deleteUser, List.mem_filter, Bool.not_eq_true',
      Bool.or_eq_false_iff, beq_eq_false_iff_ne, ne_eq] at hc
    exact hc.2.1
  · intro i hi
    simp only [deleteUser, List.mem_map, List.mem_filter, Bool.not_eq_true',
      Bool.or_eq_false_iff, beq_eq_false_iff_ne, ne_eq] at hi
    obtain ⟨i0, ⟨_, hauth, _⟩, hmap⟩ := hi
    by_cases hass : i0.assignee = some uid
    · rw [if_pos hass] at hmap
      refine ⟨by rw [← hmap]; exact hauth, by rw [← hmap]; simp⟩
    · rw [if_neg hass] at hmap
      exact ⟨by rw [← hmap]; exact hauth, by rw [← hmap]; exact hass⟩
  · intro c hc
    simp only [deleteUser, List.mem_filter, Bool.not_eq_true',
      Bool.or_eq_false_iff, beq_eq_false_iff_ne, ne_eq] at hc
    exact hc.2.1
  · intro p hp hpauthor
    have hpid : p.id ∈ (s.projects.filter (fun q => q.author == uid)).map Project.id := by
      exact List.mem_map_of_mem Project.id (List.mem_filter.mpr ⟨hp, by simp [hpauthor]⟩)
    constructor
    · intro i hi
      simp only [deleteUser, List.mem_map, List.mem_filter, Bool.not_eq_true',
        Bool.or_eq_false_iff, beq_eq_false_iff_ne, ne_eq] at hi
      obtain ⟨i0, ⟨_, _, hproj⟩, hmap⟩ := hi
      have hip : i.project = i0.project := by
        by_cases hass : i0.assignee = some uid
        · rw [if_pos hass] at hmap; rw [← hmap]
        · rw [if_neg hass] at hmap; rw [← hmap]
      rw [hip]
      intro hcontra
      rw [hcontra] at hproj
      exact absurd hpid (by simpa using hproj)
    · intro c hc
      simp only [deleteUser, List.mem_filter, Bool.not_eq_true',
        Bool.or_eq_false_iff, beq_eq_false_iff_ne, ne_eq] at hc
      intro hcontra
      rw [hcontra] at hc
      exact absurd hpid (by simpa using hc.2.2)
  · intro i hi hdead c hc
    simp only [deleteUser, List.mem_filter, Bool.not_eq_true',
      Bool.or_eq_false_iff, beq_eq_false_iff_ne, ne_eq] at hc
    have hiid : i.id ∈
        ((s.issues.filter (fun j =>
            j.author == uid ||
            ((s.projects.filter (fun q => q.author == uid)).map Project.id).contains j.project)).map
          Issue.id) := by
      apply List.mem_map_of_mem Issue.id
      apply List.mem_filter.mpr
      refine ⟨hi, ?_⟩
      rcases hdead with hauth | ⟨p, hp, hpauthor, hproj⟩
      · simp [hauth]
      · have : i.project ∈ (s.projects.filter (fun q => q.author == uid)).map Project.id := by
          rw [hproj]
          exact List.mem_map_of_mem Project.id (List.mem_filter.mpr ⟨hp, by simp [hpauthor]⟩)
        simp [this]
    intro hcontra
    rw [hcontra] at hc
    exact absurd hiid (by simpa using hc.2.2)

/-- Witness for C9: deleting bob (author of issue `I1` and its comment)
from the demo store; alice's surviving user row is not bob's, and carol's
surviving comment does not reference bob's deleted issue `I1`. -/
theorem delete_user_full_cascade_witness :
    alice.id ≠ 2 ∧ commentK2.issue ≠ issueI1.id :=
  ⟨(delete_user_full_cascade demoStoreNonMemberAuthor 2).1 alice (by decide),
   (delete_user_full_cascade demoStoreNonMemberAuthor 2).2.2.2.2.2.2 issueI1
     (by decide) (Or.inl (by decide)) commentK2 (by decide)⟩

end SoftDesk
